import Mathlib

/-!
Shallow embedding of the teelinks backend (src/server.js): product CRUD
routes over an external relational store and object-storage bucket, with a
shared-secret admin guard on mutating routes. External calls (storage
upload, public-URL resolution, row insert/update/delete) are modelled as
oracle results threaded through an environment record; the handlers are
translated step by step from the source, and effect flags record which
external calls each run attempted.
-/

namespace Teelinks

/-- JavaScript truthiness of an optional string: undefined and the empty
string are falsy, every other string is truthy. -/
def jsTruthyStr : Option String → Bool
  | none => false
  | some s => s != ""

/-- The value `x || null` for an optional string field: an absent or empty
string becomes null, any other string passes through. -/
def jsOrNull : Option String → Option String
  | none => none
  | some s => if s == "" then none else some s

/-- Result of the admin-guard middleware: pass the request on, or answer
401 with a message body. -/
inductive AuthResult where
  | allow : AuthResult
  | deny401 : String → AuthResult
deriving DecidableEq, Repr

/-- Embedding of authenticateAdmin (src/server.js lines 31 to 44).
ADMIN_SECRET is the environment value (undefined modelled by none); the
header argument is the value of x-admin-secret-key. A falsy configured
secret fails open; otherwise the request passes exactly when the header is
present and equal to the secret. -/
def authenticateAdmin (adminSecret : Option String) (header : Option String) : AuthResult :=
  if jsTruthyStr adminSecret = false then
    AuthResult.allow
  else
    match header, adminSecret with
    | some h, some s =>
        if jsTruthyStr (some h) && h == s then AuthResult.allow
        else AuthResult.deny401 "Unauthorized: Access is denied."
    | none, _ => AuthResult.deny401 "Unauthorized: Access is denied."
    | _, none => AuthResult.deny401 "Unauthorized: Access is denied."

/-- A configured admin secret, in the sense of the guard: the environment
variable is present and not the empty string. -/
def secretConfigured (adminSecret : Option String) : Prop :=
  ∃ s, adminSecret = some s ∧ s ≠ ""

/-- A persisted row of the products table. Fields follow the data model of
the repository; optional columns hold none for SQL null. -/
structure Product where
  id : Nat
  name : String
  description : Option String
  affiliate_link : String
  price : Option String
  image_url : Option String
  image_path_in_bucket : Option String
  category : Option String
  is_top_pick : Bool
  created_at : Nat
deriving DecidableEq, Repr

/-- The multipart body fields common to the POST and PUT routes, each
either absent (undefined in the source) or a string. -/
structure RequestBody where
  name : Option String
  description : Option String
  affiliateLink : Option String
  price : Option String
  category : Option String
  isTopPick : Option String
deriving DecidableEq, Repr

/-- The uploaded file as multer presents it to the handlers. -/
structure ImageFile where
  originalname : String
  filename : String
  mimetype : String
deriving DecidableEq, Repr

/-- The insert payload productData built by the POST handler
(src/server.js lines 159 to 168). The source comments out the
image_path field, so the payload carries no bucket path. -/
structure ProductData where
  name : String
  description : Option String
  affiliate_link : String
  price : Option String
  image_url : Option String
  category : Option String
  is_top_pick : Bool
deriving DecidableEq, Repr

/-- Builds productData from the request body and the resolved public URL,
following src/server.js lines 159 to 168: optional fields pass through
`x || null`, and is_top_pick is the exact string comparison with "true". -/
def buildProductData (body : RequestBody) (imageUrl : String) : ProductData :=
  { name := body.name.getD ""
  , description := jsOrNull body.description
  , affiliate_link := body.affiliateLink.getD ""
  , price := jsOrNull body.price
  , image_url := some imageUrl
  , category := jsOrNull body.category
  , is_top_pick := body.isTopPick == some "true" }

/-- The row the store returns for `insert(productData).select().single()`:
the payload fields plus the store-assigned id and created_at. The payload
has no image_path_in_bucket key, so that column stays null. -/
def insertedRow (pd : ProductData) (id createdAt : Nat) : Product :=
  { id := id
  , name := pd.name
  , description := pd.description
  , affiliate_link := pd.affiliate_link
  , price := pd.price
  , image_url := pd.image_url
  , image_path_in_bucket := none
  , category := pd.category
  , is_top_pick := pd.is_top_pick
  , created_at := createdAt }

/-- Oracle results for the external calls the POST handler makes: the
storage upload (some e is an error), the getPublicUrl result (absent or
empty is falsy and makes the handler throw), the row insert (some e is an
error), and the id and timestamp the store assigns on success. -/
structure CreateEnv where
  uploadError : Option String
  publicUrl : Option String
  insertError : Option String
  newId : Nat
  newCreatedAt : Nat
deriving Repr

/-- Observable outcome of one POST run: the response status, the returned
row if any, and flags for which external calls were attempted. -/
structure CreateOutcome where
  status : Nat
  row : Option Product
  uploadAttempted : Bool
  insertAttempted : Bool
deriving DecidableEq, Repr

/-- Embedding of the POST /api/products handler (src/server.js lines 94 to
198): validate that name, affiliateLink and the image file are truthy
(otherwise 400); upload the image (a storage error answers 500 before any
insert); resolve the public URL (a falsy result throws, caught as the same
500); then insert productData, answering 500 on a database error and 201
with the inserted row otherwise. -/
def postProducts (env : CreateEnv) (body : RequestBody) (imageFile : Option ImageFile) :
    CreateOutcome :=
  if !(jsTruthyStr body.name) || !(jsTruthyStr body.affiliateLink) || imageFile.isNone then
    { status := 400, row := none, uploadAttempted := false, insertAttempted := false }
  else
    match env.uploadError with
    | some _ => { status := 500, row := none, uploadAttempted := true, insertAttempted := false }
    | none =>
      if jsTruthyStr env.publicUrl = false then
        { status := 500, row := none, uploadAttempted := true, insertAttempted := false }
      else
        let pd := buildProductData body (env.publicUrl.getD "")
        match env.insertError with
        | some _ =>
            { status := 500, row := none, uploadAttempted := true, insertAttempted := true }
        | none =>
            { status := 201, row := some (insertedRow pd env.newId env.newCreatedAt)
            , uploadAttempted := true, insertAttempted := true }

/-- Query parameters of GET /api/products after parseInt: page and limit
are the parsed integers when supplied, category and search the raw
strings. -/
structure ListQuery where
  category : Option String
  search : Option String
  page : Option Int
  limit : Option Int
deriving Repr

/-- Splitting a character list on each occurrence of a nonempty separator,
scanning left to right, the way the JavaScript string split and the Lean
splitOn behave. The fuel argument is the length of the remaining text;
every step consumes at least one character, so the fuel never runs out on
the initial call. -/
def jsSplitAux (sep : List Char) : Nat → List Char → List Char → List (List Char)
  | _, [], cur => [cur.reverse]
  | 0, rest, cur => [cur.reverse ++ rest]
  | fuel + 1, c :: rest, cur =>
    if sep.isPrefixOf (c :: rest) then
      cur.reverse :: jsSplitAux sep fuel (List.drop (sep.length - 1) rest) []
    else
      jsSplitAux sep fuel rest (c :: cur)

/-- Splitting a string on each occurrence of a nonempty separator; both
call sites of the source (the storage marker of the DELETE route and the
ilike pattern of the search filter) pass a nonempty separator. -/
def jsSplit (s sep : String) : List String :=
  (jsSplitAux sep.data s.data.length s.data []).map (fun l => String.mk l)

/-- Case-insensitive substring match of a nonempty needle against a
nullable column, the way `ilike %needle%` behaves: null never matches. -/
def ilikeContains (field : Option String) (needle : String) : Bool :=
  match field with
  | none => false
  | some s => (jsSplit s.toLower needle.toLower).length != 1

/-- Whether a row satisfies the category and search filters the handler
adds (src/server.js lines 236 to 244): a truthy category must equal the
row category exactly, a truthy search must match name or description
case-insensitively. -/
def rowMatches (q : ListQuery) (r : Product) : Bool :=
  (if jsTruthyStr q.category then r.category == some (q.category.getD "") else true) &&
  (if jsTruthyStr q.search then
      ilikeContains (some r.name) (q.search.getD "") ||
      ilikeContains r.description (q.search.getD "")
   else true)

/-- Stable insertion of a row into a list already ordered by created_at
descending. -/
def insertByCreatedDesc (p : Product) : List Product → List Product
  | [] => [p]
  | q :: rest =>
    if q.created_at ≤ p.created_at then p :: q :: rest
    else q :: insertByCreatedDesc p rest

/-- Rows ordered by created_at descending, as the order modifier requests. -/
def sortByCreatedDesc (rows : List Product) : List Product :=
  rows.foldr insertByCreatedDesc []

/-- The store executing the list query: filter, order descending by
created_at, count the matches, and return the inclusive range lo..hi of
the ordered matches. A negative lower bound is a range the store rejects,
modelled as none. -/
def runListQuery (rows : List Product) (q : ListQuery) (lo hi : Int) :
    Option (List Product × Nat) :=
  if lo < 0 then none
  else
    let matching := sortByCreatedDesc (rows.filter (rowMatches q))
    some ((matching.drop lo.toNat).take (hi - lo + 1).toNat, matching.length)

/-- The JSON payload of a successful list response. -/
structure ListPayload where
  products : List Product
  totalProducts : Nat
  currentPage : Int
  totalPages : Nat
deriving DecidableEq, Repr

/-- Outcome of one GET /api/products run: the 200 payload or the 500 error
path. -/
inductive ListOutcome where
  | ok : ListPayload → ListOutcome
  | err500 : ListOutcome
deriving DecidableEq, Repr

/-- Math.ceil of count divided by a positive window size. The handler only
evaluates this with the parsed limit, and the claims constrain it to be at
least 1; nonpositive sizes are given the value 0 here. -/
def jsCeilDiv (count : Nat) (limit : Int) : Nat :=
  if limit ≤ 0 then 0 else (count + limit.toNat - 1) / limit.toNat

/-- Embedding of the GET /api/products handler (src/server.js lines 224 to
266) over a store state given as the list of all rows: defaults page to 1
and limit to 12, computes offset = (page - 1) * limit, runs the filtered
counted query over the inclusive range offset..offset + limit - 1, and on
success answers 200 with the rows, the total count, the current page and
totalPages = ceil(count / limit). -/
def getProducts (rows : List Product) (q : ListQuery) : ListOutcome :=
  let pageNum : Int := q.page.getD 1
  let limitNum : Int := q.limit.getD 12
  let offset : Int := (pageNum - 1) * limitNum
  match runListQuery rows q offset (offset + limitNum - 1) with
  | none => ListOutcome.err500
  | some (data, count) =>
      ListOutcome.ok
        { products := data
        , totalProducts := count
        , currentPage := pageNum
        , totalPages := jsCeilDiv count limitNum }

/-- The partial-update record updateData the PUT handler assembles
(src/server.js lines 282 to 298 and 324): an outer none means the key is
absent from the record; for description, price and category the inner
option is the stored value after the `x || null` normalization. -/
structure UpdateData where
  name : Option String
  description : Option (Option String)
  affiliate_link : Option String
  price : Option (Option String)
  category : Option (Option String)
  is_top_pick : Option Bool
  image_url : Option String
deriving DecidableEq, Repr

/-- Builds updateData from the request body, following src/server.js lines
293 to 298: a key is added iff the body field is defined; description,
price and category are normalized by `x || null`; name and affiliateLink
pass through verbatim; is_top_pick is the exact comparison with "true".
The image_url key is added separately by the upload branch. -/
def buildUpdateData (body : RequestBody) : UpdateData :=
  { name := body.name
  , description := body.description.map (fun s => jsOrNull (some s))
  , affiliate_link := body.affiliateLink
  , price := body.price.map (fun s => jsOrNull (some s))
  , category := body.category.map (fun s => jsOrNull (some s))
  , is_top_pick := body.isTopPick.map (fun s => s == "true")
  , image_url := none }

/-- Whether Object.keys(updateData).length === 0: no key was added. -/
def updateDataIsEmpty (ud : UpdateData) : Bool :=
  ud.name.isNone && ud.description.isNone && ud.affiliate_link.isNone &&
  ud.price.isNone && ud.category.isNone && ud.is_top_pick.isNone && ud.image_url.isNone

/-- The store applying the partial update to a row: keys present in
updateData replace the column, absent keys leave it unchanged; the payload
never carries an image_path_in_bucket key, so that column is untouched. -/
def applyUpdate (r : Product) (ud : UpdateData) : Product :=
  { r with
    name := ud.name.getD r.name
  , description := ud.description.getD r.description
  , affiliate_link := ud.affiliate_link.getD r.affiliate_link
  , price := ud.price.getD r.price
  , category := ud.category.getD r.category
  , is_top_pick := ud.is_top_pick.getD r.is_top_pick
  , image_url := match ud.image_url with | some u => some u | none => r.image_url }

/-- Oracle results for the external calls the PUT handler makes: the
replacement-image upload and public URL (used only when a file is sent),
the row currently stored at the target id (none when the id does not
exist), and a possible database error on the update call. -/
structure UpdateEnv where
  uploadError : Option String
  publicUrl : Option String
  dbRow : Option Product
  dbUpdateError : Option String
deriving Repr

/-- Observable outcome of one PUT run: the response status, the returned
row if any, whether the emptiness of updateData was logged, and flags for
which external calls were attempted. -/
structure UpdateOutcome where
  status : Nat
  row : Option Product
  emptyLogged : Bool
  uploadAttempted : Bool
  dbUpdateAttempted : Bool
deriving DecidableEq, Repr

/-- The tail of the PUT handler from the emptiness check on (src/server.js
lines 335 to 368): an empty updateData is only logged (lines 335 to 341
have no return), then the update call always runs; a database error
answers 500, null data answers 404, and otherwise 200 with the updated
row. -/
def runDbUpdate (env : UpdateEnv) (ud : UpdateData) (uploaded : Bool) : UpdateOutcome :=
  let logged := updateDataIsEmpty ud
  match env.dbUpdateError with
  | some _ =>
      { status := 500, row := none, emptyLogged := logged
      , uploadAttempted := uploaded, dbUpdateAttempted := true }
  | none =>
      match env.dbRow with
      | none =>
          { status := 404, row := none, emptyLogged := logged
          , uploadAttempted := uploaded, dbUpdateAttempted := true }
      | some r =>
          { status := 200, row := some (applyUpdate r ud), emptyLogged := logged
          , uploadAttempted := uploaded, dbUpdateAttempted := true }

/-- Embedding of the PUT /api/products/:id handler (src/server.js lines
270 to 377): assemble updateData from the body; when a replacement image
is sent, upload it (an error answers 500 before the database is reached)
and resolve its public URL (a falsy result throws, caught as 500),
setting the image_url key on success; then run the database update. -/
def putProduct (env : UpdateEnv) (body : RequestBody) (imageFile : Option ImageFile) :
    UpdateOutcome :=
  let ud := buildUpdateData body
  match imageFile with
  | some _ =>
      match env.uploadError with
      | some _ =>
          { status := 500, row := none, emptyLogged := false
          , uploadAttempted := true, dbUpdateAttempted := false }
      | none =>
          if jsTruthyStr env.publicUrl = false then
            { status := 500, row := none, emptyLogged := false
            , uploadAttempted := true, dbUpdateAttempted := false }
          else
            runDbUpdate env { ud with image_url := env.publicUrl } true
  | none => runDbUpdate env ud false

/-- The literal marker the DELETE handler splits the public URL on
(src/server.js line 417, with bucketName product-images). -/
def storageMarker : String := "/storage/v1/object/public/product-images/"

/-- Oracle results for the external calls the DELETE handler makes: the
row at the target id as the initial fetch sees it (none when the id does
not exist or the fetch fails), a possible database error on the delete
call, and a possible storage error on the image removal. -/
structure DeleteEnv where
  row : Option Product
  dbDeleteError : Option String
  storageRemoveError : Option String
deriving Repr

/-- Observable outcome of one DELETE run: the response status, flags for
the database delete and the storage removal, the bucket path passed to
the removal when one was, and whether a storage failure was logged. -/
structure DeleteOutcome where
  status : Nat
  dbDeleteAttempted : Bool
  storageRemoveAttempted : Bool
  removedPath : Option String
  storageFailureLogged : Bool
deriving DecidableEq, Repr

/-- The storage step the DELETE handler runs after a successful database
delete (src/server.js lines 412 to 433): when the fetched row exists and
its image_url is truthy, split the URL on the storage marker; when the
marker occurs, remove the part after it from the bucket, logging but
ignoring a storage failure; in every case the status is 200. -/
def storagePhase (productToDelete : Option Product) (storageRemoveError : Option String) :
    DeleteOutcome :=
  match productToDelete with
  | some p =>
      if jsTruthyStr p.image_url then
        if (jsSplit (p.image_url.getD "") storageMarker).length > 1 then
          { status := 200, dbDeleteAttempted := true, storageRemoveAttempted := true
          , removedPath := (jsSplit (p.image_url.getD "") storageMarker)[1]?
          , storageFailureLogged := storageRemoveError.isSome }
        else
          { status := 200, dbDeleteAttempted := true, storageRemoveAttempted := false
          , removedPath := none, storageFailureLogged := false }
      else
        { status := 200, dbDeleteAttempted := true, storageRemoveAttempted := false
        , removedPath := none, storageFailureLogged := false }
  | none =>
      { status := 200, dbDeleteAttempted := true, storageRemoveAttempted := false
      , removedPath := none, storageFailureLogged := false }

/-- Embedding of the DELETE /api/products/:id handler (src/server.js lines
380 to 439): fetch the row (a missing row is only logged, the handler
proceeds); run the database delete, answering 500 on error; then run the
best-effort storage step and answer 200. -/
def deleteProduct (env : DeleteEnv) : DeleteOutcome :=
  match env.dbDeleteError with
  | some _ =>
      { status := 500, dbDeleteAttempted := true, storageRemoveAttempted := false
      , removedPath := none, storageFailureLogged := false }
  | none => storagePhase env.row env.storageRemoveError

/-- A public URL of the shape the storage client produces for the
product-images bucket, used as a concrete fixture. -/
def sampleUrl : String :=
  "https://proj.supabase.co/storage/v1/object/public/product-images/public/1-img.png"

/-- Concrete create environment where every external call succeeds. -/
def envOk : CreateEnv :=
  { uploadError := none, publicUrl := some sampleUrl, insertError := none
  , newId := 1, newCreatedAt := 5 }

/-- Concrete valid create body. -/
def bodyA : RequestBody :=
  { name := some "Tee A", description := none, affiliateLink := some "https://x/a"
  , price := none, category := none, isTopPick := some "true" }

/-- Concrete body with every field absent. -/
def emptyBody : RequestBody :=
  { name := none, description := none, affiliateLink := none
  , price := none, category := none, isTopPick := none }

/-- Concrete uploaded image file. -/
def fileA : ImageFile :=
  { originalname := "img.png", filename := "1-img.png", mimetype := "image/png" }

/-- The row the successful concrete create run persists. -/
def rowA : Product := insertedRow (buildProductData bodyA sampleUrl) 1 5

/-- Concrete update environment: the target row exists and the database
update succeeds. -/
def envUpdA : UpdateEnv :=
  { uploadError := none, publicUrl := none, dbRow := some rowA, dbUpdateError := none }

/-- Concrete delete environment for a nonexistent id: the fetch sees no
row and the database delete call succeeds. -/
def envDelMissing : DeleteEnv :=
  { row := none, dbDeleteError := none, storageRemoveError := none }

/-- Concrete delete environment: the row exists with a bucket-shaped
image URL and the database delete succeeds. -/
def envDelA : DeleteEnv :=
  { row := some rowA, dbDeleteError := none, storageRemoveError := none }

/-- A row whose image URL does not contain the storage marker. -/
def rowB : Product :=
  { rowA with image_url := some "https://cdn.example.com/img.png" }

/-- Concrete delete environment for the marker-free image URL. -/
def envDelB : DeleteEnv :=
  { row := some rowB, dbDeleteError := none, storageRemoveError := none }

/-- Concrete store state with exactly two rows. -/
def rowsW : List Product := [rowA, rowB]

/-- Concrete list query asking for page 2 with page size 1. -/
def qW : ListQuery :=
  { category := none, search := none, page := some 2, limit := some 1 }

end Teelinks

namespace Teelinks

/-- C1. Admin guard: when no secret is configured (unset or empty
environment value) every request is allowed through; when a secret is
configured the request is allowed iff the x-admin-secret-key header equals
it exactly, and otherwise the response is a 401 with the fixed message
body. -/
theorem admin_guard_correct (adminSecret header : Option String) :
    (¬ secretConfigured adminSecret → authenticateAdmin adminSecret header = AuthResult.allow) ∧
    (secretConfigured adminSecret →
      ((authenticateAdmin adminSecret header = AuthResult.allow ↔ header = adminSecret) ∧
       (header ≠ adminSecret →
         authenticateAdmin adminSecret header =
           AuthResult.deny401 "Unauthorized: Access is denied."))) := by
  constructor
  · intro hnc
    unfold authenticateAdmin
    cases adminSecret with
    | none => simp [jsTruthyStr]
    | some s =>
      by_cases hs : s = ""
      · subst hs; simp [jsTruthyStr]
      · exact absurd ⟨s, rfl, hs⟩ hnc
  · rintro ⟨s, hsec, hne⟩
    subst hsec
    unfold authenticateAdmin
    have htr : jsTruthyStr (some s) = true := by
      simp [jsTruthyStr]
      exact hne
    rw [htr]
    simp only [Bool.true_eq_false, if_false]
    cases header with
    | none =>
      constructor
      · constructor
        · intro h; cases h
        · intro h; cases h
      · intro _; rfl
    | some h =>
      by_cases hh : h = s
      · subst hh
        constructor
        · constructor
          · intro _; rfl
          · intro _
            simp [jsTruthyStr, hne]
        · intro hcontra
          exact absurd rfl hcontra
      · constructor
        · constructor
          · intro hall
            simp [jsTruthyStr, hh] at hall
          · intro heq
            injection heq with heq
            exact absurd heq hh
        · intro _
          simp [jsTruthyStr, hh]

/-- C1 witness: the guard at concrete inputs, discharging each hypothesis:
with secret "s3cr3t" configured, the wrong header "nope" is denied with
the fixed 401 body. -/
theorem admin_guard_correct_witness :
    authenticateAdmin (some "s3cr3t") (some "nope") =
      AuthResult.deny401 "Unauthorized: Access is denied." :=
  ((admin_guard_correct (some "s3cr3t") (some "nope")).2
    ⟨"s3cr3t", rfl, by decide⟩).2 (by decide)

/-- C2. Create attempts the insert only after validation, the upload and
the URL resolution all succeeded: a validation failure answers 400 with
no external call, an upload error or a falsy public URL answers 500
without inserting, and the insert is attempted only when all three steps
passed. -/
theorem create_no_insert_before_success (env : CreateEnv) (body : RequestBody)
    (imageFile : Option ImageFile) :
    ((!(jsTruthyStr body.name) || !(jsTruthyStr body.affiliateLink) || imageFile.isNone)
        = true →
      (postProducts env body imageFile).status = 400 ∧
      (postProducts env body imageFile).uploadAttempted = false ∧
      (postProducts env body imageFile).insertAttempted = false) ∧
    ((!(jsTruthyStr body.name) || !(jsTruthyStr body.affiliateLink) || imageFile.isNone)
        = false →
      env.uploadError.isSome = true →
      (postProducts env body imageFile).status = 500 ∧
      (postProducts env body imageFile).insertAttempted = false) ∧
    ((!(jsTruthyStr body.name) || !(jsTruthyStr body.affiliateLink) || imageFile.isNone)
        = false →
      env.uploadError = none → jsTruthyStr env.publicUrl = false →
      (postProducts env body imageFile).status = 500 ∧
      (postProducts env body imageFile).insertAttempted = false) ∧
    ((postProducts env body imageFile).insertAttempted = true →
      (!(jsTruthyStr body.name) || !(jsTruthyStr body.affiliateLink) || imageFile.isNone)
        = false ∧
      env.uploadError = none ∧ jsTruthyStr env.publicUrl = true) := by
  refine ⟨?_, ?_, ?_, ?_⟩
  · intro hval
    unfold postProducts
    rw [if_pos hval]
    exact ⟨rfl, rfl, rfl⟩
  · intro hval hup
    have hval' : ¬ ((!(jsTruthyStr body.name) || !(jsTruthyStr body.affiliateLink)
        || imageFile.isNone) = true) := by
      rw [hval]; exact fun h => Bool.noConfusion h
    unfold postProducts
    rw [if_neg hval']
    cases henv : env.uploadError with
    | some e => exact ⟨rfl, rfl⟩
    | none => rw [henv] at hup; exact Bool.noConfusion hup
  · intro hval hup hurl
    have hval' : ¬ ((!(jsTruthyStr body.name) || !(jsTruthyStr body.affiliateLink)
        || imageFile.isNone) = true) := by
      rw [hval]; exact fun h => Bool.noConfusion h
    unfold postProducts
    rw [if_neg hval', hup, hurl, if_pos rfl]
    exact ⟨rfl, rfl⟩
  · unfold postProducts
    cases hval : (!(jsTruthyStr body.name) || !(jsTruthyStr body.affiliateLink)
        || imageFile.isNone) with
    | true =>
      rw [if_pos rfl]
      exact fun h => Bool.noConfusion h
    | false =>
      rw [if_neg (fun h => Bool.noConfusion h)]
      cases hup : env.uploadError with
      | some e => exact fun h => Bool.noConfusion h
      | none =>
        cases hurl : jsTruthyStr env.publicUrl with
        | false =>
          rw [if_pos rfl]
          exact fun h => Bool.noConfusion h
        | true =>
          rw [if_neg (fun h => Bool.noConfusion h)]
          cases hins : env.insertError with
          | some e => exact fun _ => ⟨rfl, rfl, rfl⟩
          | none => exact fun _ => ⟨rfl, rfl, rfl⟩

/-- C2 witness: the theorem at the concrete empty body with no image,
discharging the validation-failure hypothesis: the outcome is a 400 and
no insert is attempted. -/
theorem create_no_insert_before_success_witness :
    (postProducts envOk emptyBody none).status = 400 ∧
    (postProducts envOk emptyBody none).uploadAttempted = false ∧
    (postProducts envOk emptyBody none).insertAttempted = false :=
  (create_no_insert_before_success envOk emptyBody none).1 (by decide)

/-- C7. For every create run that persists a row, its is_top_pick is true
iff the isTopPick body field was the exact string "true"; absence or any
other string gives false. -/
theorem create_top_pick_iff (env : CreateEnv) (body : RequestBody)
    (imageFile : Option ImageFile) (r : Product)
    (h : (postProducts env body imageFile).row = some r) :
    r.is_top_pick = true ↔ body.isTopPick = some "true" := by
  unfold postProducts at h
  by_cases hval : (!(jsTruthyStr body.name) || !(jsTruthyStr body.affiliateLink)
      || imageFile.isNone) = true
  · rw [if_pos hval] at h; cases h
  · rw [if_neg hval] at h
    cases hup : env.uploadError with
    | some e => rw [hup] at h; cases h
    | none =>
      rw [hup] at h
      by_cases hurl : jsTruthyStr env.publicUrl = false
      · rw [if_pos hurl] at h; cases h
      · rw [if_neg hurl] at h
        cases hins : env.insertError with
        | some e => rw [hins] at h; cases h
        | none =>
          rw [hins] at h
          injection h with h
          subst h
          show (body.isTopPick == some "true") = true ↔ _
          exact beq_iff_eq

/-- C7 witness: the theorem at the concrete valid create run whose body
carries isTopPick = "true", discharging the persisted-row hypothesis. -/
theorem create_top_pick_iff_witness :
    rowA.is_top_pick = true ↔ bodyA.isTopPick = some "true" :=
  create_top_pick_iff envOk bodyA (some fileA) rowA rfl

/-- C8 counterexample: the concrete successful create run persists a row
whose image_url is set while image_path_in_bucket is null, so the
both-set-or-both-null invariant fails for it. -/
theorem image_path_invariant_counterexample :
    (postProducts envOk bodyA (some fileA)).row = some rowA ∧
    ¬ ((rowA.image_url ≠ none ∧ rowA.image_path_in_bucket ≠ none) ∨
       (rowA.image_url = none ∧ rowA.image_path_in_bucket = none)) := by
  exact ⟨rfl, by decide⟩

/-- C8 amended: no operation ever writes image_path_in_bucket — every row
persisted by create has it null (the insert payload omits the key), and
the partial update leaves the column of the stored row untouched — so the
column is set in no row the service creates, while image_url is set in
every created row. -/
theorem image_path_never_written (env : CreateEnv) (body : RequestBody)
    (imageFile : Option ImageFile) (r r0 : Product) (ud : UpdateData) :
    ((postProducts env body imageFile).row = some r →
      r.image_path_in_bucket = none ∧ r.image_url ≠ none) ∧
    (applyUpdate r0 ud).image_path_in_bucket = r0.image_path_in_bucket := by
  constructor
  · intro h
    unfold postProducts at h
    by_cases hval : (!(jsTruthyStr body.name) || !(jsTruthyStr body.affiliateLink)
        || imageFile.isNone) = true
    · rw [if_pos hval] at h; cases h
    · rw [if_neg hval] at h
      cases hup : env.uploadError with
      | some e => rw [hup] at h; cases h
      | none =>
        rw [hup] at h
        by_cases hurl : jsTruthyStr env.publicUrl = false
        · rw [if_pos hurl] at h; cases h
        · rw [if_neg hurl] at h
          cases hins : env.insertError with
          | some e => rw [hins] at h; cases h
          | none =>
            rw [hins] at h
            injection h with h
            subst h
            exact ⟨rfl, by simp [insertedRow, buildProductData]⟩
  · rfl

/-- C8 amended witness: the theorem at the concrete create run and a
concrete update, discharging the persisted-row hypothesis. -/
theorem image_path_never_written_witness :
    (rowA.image_path_in_bucket = none ∧ rowA.image_url ≠ none) ∧
    (applyUpdate rowA (buildUpdateData bodyA)).image_path_in_bucket =
      rowA.image_path_in_bucket :=
  ⟨(image_path_never_written envOk bodyA (some fileA) rowA rowA
      (buildUpdateData bodyA)).1 rfl,
   (image_path_never_written envOk bodyA (some fileA) rowA rowA
      (buildUpdateData bodyA)).2⟩

/-- C3 counterexample: with an empty body, no replacement image, an
existing target row and a successful store call, the assembled record is
empty yet the handler still contacts the store and answers 200, not the
claimed 400 without store contact. -/
theorem empty_update_counterexample :
    updateDataIsEmpty (buildUpdateData emptyBody) = true ∧
    (putProduct envUpdA emptyBody none).dbUpdateAttempted = true ∧
    (putProduct envUpdA emptyBody none).status = 200 ∧
    (putProduct envUpdA emptyBody none).status ≠ 400 := by
  refine ⟨rfl, rfl, rfl, ?_⟩
  intro h
  exact absurd h (by decide)

/-- C3 amended: when the assembled partial-update record is empty the
handler only logs that fact; it still contacts the store with the empty
record, never answers 400 for emptiness, and the response is the store
outcome (in particular 200 when the call succeeds on an existing row). -/
theorem empty_update_still_contacts_store (env : UpdateEnv) (body : RequestBody)
    (h : updateDataIsEmpty (buildUpdateData body) = true) :
    (putProduct env body none).dbUpdateAttempted = true ∧
    (putProduct env body none).emptyLogged = true ∧
    (putProduct env body none).status ≠ 400 ∧
    (env.dbUpdateError = none → ∀ r, env.dbRow = some r →
      (putProduct env body none).status = 200) := by
  obtain ⟨upErr, pubUrl, dbRow, dbErr⟩ := env
  cases dbErr with
  | some e =>
    refine ⟨rfl, h, ?_, ?_⟩
    · show (500 : Nat) ≠ 400; decide
    · intro hn; exact Option.noConfusion hn
  | none =>
    cases dbRow with
    | none =>
      refine ⟨rfl, h, ?_, ?_⟩
      · show (404 : Nat) ≠ 400; decide
      · intro _ r hr; exact Option.noConfusion hr
    | some r0 =>
      refine ⟨rfl, h, ?_, fun _ _ _ => rfl⟩
      show (200 : Nat) ≠ 400; decide

/-- C3 amended witness: the theorem at the concrete empty body and an
environment whose store call succeeds, discharging every hypothesis. -/
theorem empty_update_still_contacts_store_witness :
    (putProduct envUpdA emptyBody none).dbUpdateAttempted = true ∧
    (putProduct envUpdA emptyBody none).emptyLogged = true ∧
    (putProduct envUpdA emptyBody none).status = 200 :=
  ⟨(empty_update_still_contacts_store envUpdA emptyBody rfl).1,
   (empty_update_still_contacts_store envUpdA emptyBody rfl).2.1,
   (empty_update_still_contacts_store envUpdA emptyBody rfl).2.2.2 rfl rowA rfl⟩

/-- C4 counterexample: deleting a nonexistent id with a succeeding
database call answers 200, not 404, and the database deletion is
attempted, contrary to the claim that no deletion is attempted. -/
theorem delete_missing_counterexample :
    (deleteProduct envDelMissing).status = 200 ∧
    (deleteProduct envDelMissing).status ≠ 404 ∧
    (deleteProduct envDelMissing).dbDeleteAttempted = true := by
  refine ⟨rfl, ?_, rfl⟩
  intro h
  exact absurd h (by decide)

/-- C4 amended: when no row exists for the id, the handler logs and
proceeds: it still attempts the database deletion, never answers 404,
skips only the storage removal, and answers 200 when the database call
succeeds. -/
theorem delete_missing_row_proceeds (env : DeleteEnv) (h : env.row = none) :
    (deleteProduct env).dbDeleteAttempted = true ∧
    (deleteProduct env).status ≠ 404 ∧
    (deleteProduct env).storageRemoveAttempted = false ∧
    (env.dbDeleteError = none → (deleteProduct env).status = 200) := by
  obtain ⟨row, dbErr, stErr⟩ := env
  have hr : row = none := h
  subst hr
  cases dbErr with
  | some e =>
    refine ⟨rfl, ?_, rfl, ?_⟩
    · show (500 : Nat) ≠ 404; decide
    · intro hn; exact Option.noConfusion hn
  | none =>
    refine ⟨rfl, ?_, rfl, fun _ => rfl⟩
    show (200 : Nat) ≠ 404; decide

/-- C4 amended witness: the theorem at the concrete missing-row delete
environment, discharging every hypothesis. -/
theorem delete_missing_row_proceeds_witness :
    (deleteProduct envDelMissing).dbDeleteAttempted = true ∧
    (deleteProduct envDelMissing).status = 200 :=
  ⟨(delete_missing_row_proceeds envDelMissing rfl).1,
   (delete_missing_row_proceeds envDelMissing rfl).2.2.2 rfl⟩

/-- C6. Update is a partial replacement: after applying the assembled
record to a stored row, each column equals the body field when it was
present (with an empty description, price or category normalized to null
and name and affiliate_link taken verbatim) and the old column when the
field was absent; image_url and image_path_in_bucket are untouched when
no replacement image was uploaded. -/
theorem update_partial_fields (body : RequestBody) (r : Product) :
    (applyUpdate r (buildUpdateData body)).name
      = (match body.name with | none => r.name | some s => s) ∧
    (applyUpdate r (buildUpdateData body)).affiliate_link
      = (match body.affiliateLink with | none => r.affiliate_link | some s => s) ∧
    (applyUpdate r (buildUpdateData body)).description
      = (match body.description with
         | none => r.description
         | some s => if s = "" then none else some s) ∧
    (applyUpdate r (buildUpdateData body)).price
      = (match body.price with
         | none => r.price
         | some s => if s = "" then none else some s) ∧
    (applyUpdate r (buildUpdateData body)).category
      = (match body.category with
         | none => r.category
         | some s => if s = "" then none else some s) ∧
    (applyUpdate r (buildUpdateData body)).is_top_pick
      = (match body.isTopPick with | none => r.is_top_pick | some s => s == "true") ∧
    (applyUpdate r (buildUpdateData body)).image_url = r.image_url ∧
    (applyUpdate r (buildUpdateData body)).image_path_in_bucket = r.image_path_in_bucket := by
  obtain ⟨n, d, al, pr, c, tp⟩ := body
  refine ⟨?_, ?_, ?_, ?_, ?_, ?_, rfl, rfl⟩
  · cases n <;> rfl
  · cases al <;> rfl
  · cases d with
    | none => rfl
    | some s =>
      by_cases hs : s = "" <;>
        simp [applyUpdate, buildUpdateData, jsOrNull, hs]
  · cases pr with
    | none => rfl
    | some s =>
      by_cases hs : s = "" <;>
        simp [applyUpdate, buildUpdateData, jsOrNull, hs]
  · cases c with
    | none => rfl
    | some s =>
      by_cases hs : s = "" <;>
        simp [applyUpdate, buildUpdateData, jsOrNull, hs]
  · cases tp <;> rfl

/-- Inserting a row grows the length by one. -/
theorem insertByCreatedDesc_length (p : Product) (l : List Product) :
    (insertByCreatedDesc p l).length = l.length + 1 := by
  induction l with
  | nil => rfl
  | cons q rest ih =>
    unfold insertByCreatedDesc
    by_cases hq : q.created_at ≤ p.created_at
    · rw [if_pos hq]; rfl
    · rw [if_neg hq]
      simp [ih]

/-- Sorting preserves the number of rows. -/
theorem sortByCreatedDesc_length (l : List Product) :
    (sortByCreatedDesc l).length = l.length := by
  induction l with
  | nil => rfl
  | cons q rest ih =>
    show (insertByCreatedDesc q (sortByCreatedDesc rest)).length = rest.length + 1
    rw [insertByCreatedDesc_length, ih]

/-- C5. List pagination: with page p and page size L supplied
(both at least 1), the handler queries the store over the window of size
L starting at offset (p - 1) * L of the filtered rows ordered by creation
time descending, answers 200 with currentPage = p, never returns more
than L items, computes totalPages as the ceiling of totalCount / L, and
an empty matching set gives an empty sequence with count 0 and
totalPages 0. -/
theorem list_pagination_correct (rows : List Product) (q : ListQuery)
    (p L : Int) (hp : q.page.getD 1 = p) (hL : q.limit.getD 12 = L)
    (hp1 : 1 ≤ p) (hL1 : 1 ≤ L) :
    ∃ pl, getProducts rows q = ListOutcome.ok pl ∧
      pl.currentPage = p ∧
      pl.products = ((sortByCreatedDesc (rows.filter (rowMatches q))).drop
          ((p - 1) * L).toNat).take L.toNat ∧
      pl.totalProducts = (rows.filter (rowMatches q)).length ∧
      pl.products.length ≤ L.toNat ∧
      pl.totalPages = (pl.totalProducts + L.toNat - 1) / L.toNat ∧
      (pl.totalProducts = 0 → pl.products = [] ∧ pl.totalPages = 0) := by
  have hoff : ¬ ((p - 1) * L < 0) := by
    have := mul_nonneg (by omega : (0:Int) ≤ p - 1) (by omega : (0:Int) ≤ L)
    omega
  have htake : ((p - 1) * L + L - 1) - (p - 1) * L + 1 = L := by ring
  have hrun : runListQuery rows q ((p - 1) * L) ((p - 1) * L + L - 1) =
      some (((sortByCreatedDesc (rows.filter (rowMatches q))).drop
               ((p - 1) * L).toNat).take L.toNat,
            (sortByCreatedDesc (rows.filter (rowMatches q))).length) := by
    unfold runListQuery
    rw [if_neg hoff, htake]
  have hkey : getProducts rows q =
      ListOutcome.ok
        { products := ((sortByCreatedDesc (rows.filter (rowMatches q))).drop
              ((p - 1) * L).toNat).take L.toNat
        , totalProducts := (sortByCreatedDesc (rows.filter (rowMatches q))).length
        , currentPage := p
        , totalPages := jsCeilDiv (sortByCreatedDesc (rows.filter (rowMatches q))).length L } := by
    unfold getProducts
    rw [hp, hL]
    dsimp only
    rw [hrun]
  have hlen : (sortByCreatedDesc (rows.filter (rowMatches q))).length
      = (rows.filter (rowMatches q)).length := sortByCreatedDesc_length _
  have hLpos : ¬ (L ≤ 0) := by omega
  refine ⟨_, hkey, rfl, rfl, hlen, ?_, ?_, ?_⟩
  · exact List.length_take_le _ _
  · show jsCeilDiv (sortByCreatedDesc (rows.filter (rowMatches q))).length L = _
    unfold jsCeilDiv
    rw [if_neg hLpos]
  · intro h0
    have hnil : sortByCreatedDesc (rows.filter (rowMatches q)) = [] :=
      List.length_eq_zero.mp h0
    constructor
    · show ((sortByCreatedDesc (rows.filter (rowMatches q))).drop
          ((p - 1) * L).toNat).take L.toNat = []
      rw [hnil]
      simp
    · show jsCeilDiv (sortByCreatedDesc (rows.filter (rowMatches q))).length L = 0
      rw [hnil]
      unfold jsCeilDiv
      rw [if_neg hLpos]
      simp only [List.length_nil]
      have hL1n : 1 ≤ L.toNat := by omega
      exact Nat.div_eq_of_lt (by omega)

/-- C5 witness: the theorem at the concrete two-row store with page 2 and
page size 1, discharging every hypothesis. -/
theorem list_pagination_correct_witness :
    ∃ pl, getProducts rowsW qW = ListOutcome.ok pl ∧
      pl.currentPage = 2 ∧
      pl.products = ((sortByCreatedDesc (rowsW.filter (rowMatches qW))).drop
          (((2:Int) - 1) * 1).toNat).take (1:Int).toNat ∧
      pl.totalProducts = (rowsW.filter (rowMatches qW)).length ∧
      pl.products.length ≤ (1:Int).toNat ∧
      pl.totalPages = (pl.totalProducts + (1:Int).toNat - 1) / (1:Int).toNat ∧
      (pl.totalProducts = 0 → pl.products = [] ∧ pl.totalPages = 0) :=
  list_pagination_correct rowsW qW 2 1 rfl rfl (by decide) (by decide)

/-- C9. Delete: once the database deletion has succeeded the response is
200 whatever the storage-removal oracle answers, and when the removal was
attempted a storage failure is only logged. -/
theorem delete_success_ignores_storage (env : DeleteEnv) (e : Option String)
    (h : env.dbDeleteError = none) :
    (deleteProduct { env with storageRemoveError := e }).status = 200 ∧
    (deleteProduct { env with storageRemoveError := e }).dbDeleteAttempted = true ∧
    ((deleteProduct { env with storageRemoveError := e }).storageRemoveAttempted = true →
      (deleteProduct { env with storageRemoveError := e }).storageFailureLogged = e.isSome) := by
  obtain ⟨row, dbErr, stErr⟩ := env
  have hd : dbErr = none := h
  subst hd
  show (storagePhase row e).status = 200 ∧ (storagePhase row e).dbDeleteAttempted = true ∧
    ((storagePhase row e).storageRemoveAttempted = true →
      (storagePhase row e).storageFailureLogged = e.isSome)
  unfold storagePhase
  cases row with
  | none => exact ⟨rfl, rfl, fun hc => Bool.noConfusion hc⟩
  | some p =>
    dsimp only
    by_cases ht : jsTruthyStr p.image_url = true
    · rw [if_pos ht]
      by_cases hlen : (jsSplit (p.image_url.getD "") storageMarker).length > 1
      · rw [if_pos hlen]
        exact ⟨rfl, rfl, fun _ => rfl⟩
      · rw [if_neg hlen]
        exact ⟨rfl, rfl, fun hc => Bool.noConfusion hc⟩
    · rw [if_neg ht]
      exact ⟨rfl, rfl, fun hc => Bool.noConfusion hc⟩

/-- C9 witness: the theorem at the concrete delete environment whose row
carries a bucket image URL, with a failing storage oracle: the status is
still 200 and the failure is logged. -/
theorem delete_success_ignores_storage_witness :
    (deleteProduct { envDelA with storageRemoveError := some "boom" }).status = 200 ∧
    (deleteProduct { envDelA with storageRemoveError := some "boom" }).storageFailureLogged
      = true :=
  ⟨(delete_success_ignores_storage envDelA (some "boom") rfl).1,
   (delete_success_ignores_storage envDelA (some "boom") rfl).2.2 (by decide)⟩

/-- C10. Delete derives the bucket path by splitting the stored image URL
on the literal marker string: when the marker occurs, the part after the
first occurrence is removed from storage; when the URL does not contain
the marker the removal is silently skipped; the status is 200 either
way. -/
theorem delete_path_from_url_split (env : DeleteEnv) (p : Product) (url : String)
    (hrow : env.row = some p) (hurl : p.image_url = some url)
    (hdb : env.dbDeleteError = none) :
    ((jsSplit url storageMarker).length > 1 →
      (deleteProduct env).storageRemoveAttempted = true ∧
      (deleteProduct env).removedPath = (jsSplit url storageMarker)[1]?) ∧
    ((jsSplit url storageMarker).length ≤ 1 →
      (deleteProduct env).storageRemoveAttempted = false ∧
      (deleteProduct env).removedPath = none) ∧
    (deleteProduct env).status = 200 := by
  obtain ⟨row, dbErr, stErr⟩ := env
  have hr : row = some p := hrow
  have hd : dbErr = none := hdb
  subst hr
  subst hd
  show ((jsSplit url storageMarker).length > 1 →
      (storagePhase (some p) stErr).storageRemoveAttempted = true ∧
      (storagePhase (some p) stErr).removedPath = (jsSplit url storageMarker)[1]?) ∧
    ((jsSplit url storageMarker).length ≤ 1 →
      (storagePhase (some p) stErr).storageRemoveAttempted = false ∧
      (storagePhase (some p) stErr).removedPath = none) ∧
    (storagePhase (some p) stErr).status = 200
  unfold storagePhase
  dsimp only
  rw [hurl]
  simp only [Option.getD_some]
  by_cases hu : url = ""
  · subst hu
    rw [if_neg (by decide)]
    refine ⟨?_, fun _ => ⟨rfl, rfl⟩, rfl⟩
    intro hgt
    exact absurd hgt (by decide)
  · have ht : jsTruthyStr (some url) = true := by
      simp [jsTruthyStr]
      exact hu
    rw [if_pos ht]
    by_cases hlen : (jsSplit url storageMarker).length > 1
    · rw [if_pos hlen]
      exact ⟨fun _ => ⟨rfl, rfl⟩, fun hle => absurd hle (by omega), rfl⟩
    · rw [if_neg hlen]
      exact ⟨fun hgt => absurd hgt hlen, fun _ => ⟨rfl, rfl⟩, rfl⟩

/-- C10 witness: the theorem at the concrete delete environment whose row
stores a URL without the marker, discharging every hypothesis: the
removal is skipped and the status is 200. -/
theorem delete_path_from_url_split_witness :
    (deleteProduct envDelB).storageRemoveAttempted = false ∧
    (deleteProduct envDelB).removedPath = none ∧
    (deleteProduct envDelB).status = 200 :=
  ⟨((delete_path_from_url_split envDelB rowB "https://cdn.example.com/img.png" rfl rfl rfl).2.1
      (by decide)).1,
   ((delete_path_from_url_split envDelB rowB "https://cdn.example.com/img.png" rfl rfl rfl).2.1
      (by decide)).2,
   (delete_path_from_url_split envDelB rowB "https://cdn.example.com/img.png" rfl rfl rfl).2.2⟩

end Teelinks
